import Mathlib

/-!
Verification of the Code-plugin clone-job pipeline (Clone Worker, Watermark
Admission Policy, Cancellation Registry) against its specification.

The Clone Worker implementation itself is not among the provided sources; only
its unit tests are (clone_worker tests).  The worker, the disk-watermark
admission check and the cancellation registry are therefore modelled from the
spec, with the unit tests pinning the observable contract: the order of the
watermark probe relative to URL validation, the count of status-store calls in
each hook, and the debounce before the index job is enqueued.
-/

namespace CodePlugin

/-- Payload of a clone job: the repository URL to clone. -/
structure Payload where
  url : String
deriving Repr, DecidableEq

/-- A queued job as delivered by the queue collaborator:
`\x7b payload, options, timestamp \x7d` (options carries no data the worker
branches on in the modelled paths, so it is omitted). -/
structure Job where
  payload : Payload
  timestamp : Nat
deriving Repr, DecidableEq

/-- A repository object, identified by its normalized URI. -/
structure Repo where
  uri : String
deriving Repr, DecidableEq

/-- Result of a clone job execution: the repository URI, the repository object
(`none` models the `null` repo returned for an invalid git URL) and the
cancellation marker. -/
structure CloneWorkerResult where
  uri : String
  repo : Option Repo
  cancelled : Bool
deriving Repr, DecidableEq

/-- Errors with which `executeJob` can reject (modelled from the spec's error
taxonomy): the disk watermark is too low, or the watermark probe itself
failed. -/
inductive CloneError where
  | AdmissionRejected
  | AdmissionProbeError
deriving Repr, DecidableEq

/-- Observable calls the worker makes on its collaborators, in the order it
makes them.  One constructor per spy asserted in the clone_worker tests:
the watermark probe (`isLowWatermark`), the repository-service factory
(`newInstance`), the cancellation registry (`registerCancelableCloneJob`),
the clone itself (`clone`), the three `EsClient.update` status writes of the
completion hook, the index-worker enqueue (`enqueueJob`) and the
`EsClient.index` create of the enqueue hook. -/
inductive Event where
  | probeConsulted
  | newInstance
  | registerCancelableEvt (key : String)
  | cloneDriven (url : String)
  | unregisterCancelableEvt (key : String)
  | updateRepoMetadata
  | updateCloneStatusRevision
  | updateCloneProgress
  | enqueueIndexJob (uri : String)
  | statusCreate (uri : String) (progress : Nat)
deriving Repr, DecidableEq

/-- Splits a character list at the first `://`, returning the scheme and the
remainder; `none` when no `://` occurs. -/
def splitScheme : List Char → Option (List Char × List Char)
  | [] => none
  | ':' :: '/' :: '/' :: rest => some ([], rest)
  | c :: rest =>
      match splitScheme rest with
      | some (s, r) => some (c :: s, r)
      | none => none

/-- The URL schemes accepted as remote git URLs. -/
def networkSchemes : List (List Char) := ["https".data, "http".data, "git".data, "ssh".data]

/-- Modelled from the spec: URL validation (`validateGitUrl` is not among the
provided sources).  A repository URL is valid when it is an absolute network
URL; `file://` URLs and bare filesystem paths are rejected. -/
def isValidGitUrl (url : String) : Bool :=
  match splitScheme url.data with
  | some (s, _) => networkSchemes.contains s
  | none => false

/-- Drops a trailing `.git` from a character list, if present. -/
def dropDotGit (cs : List Char) : List Char :=
  match cs.reverse with
  | 't' :: 'i' :: 'g' :: '.' :: rest => rest.reverse
  | _ => cs

/-- Modelled from the spec: job identity is derived from the normalized
repository URI (scheme and trailing `.git` stripped), e.g.
`https://github.com/a/b.git` becomes `github.com/a/b`. -/
def repoUri (url : String) : String :=
  match splitScheme url.data with
  | some (_, rest) => String.mk (dropDotGit rest)
  | none => String.mk (dropDotGit url.data)

/-- A cancellation handle, identified abstractly. -/
abbrev CancelHandle := Nat

/-- Modelled from the spec: the Cancellation Registry's state (the
cancellation-service source is not among the provided sources) — a map from
job key to the live cancel handle, represented as an association list. -/
abbrev Registry := List (String × CancelHandle)

/-- The job keys currently registered. -/
def keysOf (reg : Registry) : List String := reg.map Prod.fst

/-- Modelled from the spec: `registerCancelable(jobKey, cancelHandle)` stores
the handle keyed by job key and replaces any prior handle for the same key,
without error. -/
def registerCancelable (key : String) (h : CancelHandle) (reg : Registry) : Registry :=
  (key, h) :: reg.filter (fun e => e.1 != key)

/-- Modelled from the spec: `cancel(jobKey)` invokes the registered handle and
returns `true` if one exists; returns `false` (not an error) if none does.
The second component lists the handles actually invoked. -/
def cancel (key : String) (reg : Registry) : Bool × List CancelHandle :=
  match reg.find? (fun e => e.1 == key) with
  | some e => (true, [e.2])
  | none => (false, [])

/-- Modelled from the spec: `unregister(jobKey)` removes the entry for the key,
called by the owning worker on job completion. -/
def unregister (key : String) (reg : Registry) : Registry :=
  reg.filter (fun e => e.1 != key)

/-- Modelled from the spec: `CloneWorker.executeJob` (the clone_worker source
is not among the provided sources; the clone_worker tests pin its observable
contract).  The watermark probe is consulted first — once per attempt, even
for an invalid URL, as the `Skip clone job for invalid git url` test asserts
(`isLowWatermarkSpy.calledOnce` after an invalid-URL execution).  `probe` is
the probe's answer: `none` models a probe failure, `some true` low disk.
On low disk the job fails with `AdmissionRejected` before any service is
created.  An invalid URL yields a normal result with a `null` repo.  On the
happy path one repository-service instance is created, its cancel handle is
registered under the job's key, the clone is driven, and the handle is
unregistered when the clone returns. -/
def executeJob (probe : Option Bool) (job : Job) :
    Except CloneError CloneWorkerResult × List Event :=
  match probe with
  | none => (.error .AdmissionProbeError, [.probeConsulted])
  | some true => (.error .AdmissionRejected, [.probeConsulted])
  | some false =>
      let url := job.payload.url
      if isValidGitUrl url then
        let key := repoUri url
        (.ok { uri := key, repo := some { uri := key }, cancelled := false },
          [.probeConsulted, .newInstance, .registerCancelableEvt key,
           .cloneDriven url, .unregisterCancelableEvt key])
      else
        (.ok { uri := url, repo := none, cancelled := false }, [.probeConsulted])

/-- The fixed debounce delay, in milliseconds, between the completion hook's
status writes and the enqueue of the indexing job. -/
def debounceMs : Nat := 1000

/-- Modelled from the spec: `CloneWorker.onJobCompleted`, invoked at time `t`
(the clone_worker source is not among the provided sources; the tests pin the
contract).  On a cancelled result: no status-store writes, no index enqueue.
Otherwise: three status-store updates (repository metadata, clone-status
revision, clone progress) at completion time, then — after the fixed debounce
delay — the index job is enqueued exactly once.  The trace pairs each
collaborator call with the time it happens. -/
def onJobCompleted (t : Nat) (res : CloneWorkerResult) : List (Nat × Event) :=
  if res.cancelled then []
  else
    [(t, .updateRepoMetadata), (t, .updateCloneStatusRevision), (t, .updateCloneProgress),
     (t + debounceMs, .enqueueIndexJob res.uri)]

/-- Modelled from the spec: `CloneWorker.onJobEnqueued` — writes exactly one
initial status record, with progress 0, for the job's repository. -/
def onJobEnqueued (job : Job) : List Event :=
  [.statusCreate (repoUri job.payload.url) 0]

/-- Number of events in a trace satisfying `p`. -/
def countEvt (p : Event → Bool) (evs : List Event) : Nat := (evs.filter p).length

/-- The event is a watermark-probe consultation. -/
def isProbe : Event → Bool
  | .probeConsulted => true
  | _ => false

/-- The event is a repository-service instantiation. -/
def isNewInstance : Event → Bool
  | .newInstance => true
  | _ => false

/-- The event is a cancel-handle registration. -/
def isRegister : Event → Bool
  | .registerCancelableEvt _ => true
  | _ => false

/-- The event drives the clone. -/
def isClone : Event → Bool
  | .cloneDriven _ => true
  | _ => false

/-- The event is one of the three status-store update calls. -/
def isUpdate : Event → Bool
  | .updateRepoMetadata => true
  | .updateCloneStatusRevision => true
  | .updateCloneProgress => true
  | _ => false

/-- The event enqueues the downstream index job. -/
def isEnqueueIndex : Event → Bool
  | .enqueueIndexJob _ => true
  | _ => false

/-- The event is a status-store create call. -/
def isCreate : Event → Bool
  | .statusCreate _ _ => true
  | _ => false

/-! Registry helper lemmas. -/

/-- Taking keys commutes with filtering out a key. -/
lemma map_fst_filter_ne (key : String) (reg : Registry) :
    (reg.filter (fun e => e.1 != key)).map Prod.fst =
      (reg.map Prod.fst).filter (fun k => k != key) := by
  induction reg with
  | nil => rfl
  | cons e tl ih =>
      by_cases h : e.1 = key
      · simp [List.filter_cons, h, ih]
      · simp [List.filter_cons, h, ih]

/-- The keys after a registration: the new key in front, every older entry for
that key removed. -/
lemma keysOf_registerCancelable (key : String) (h : CancelHandle) (reg : Registry) :
    keysOf (registerCancelable key h reg) =
      key :: (keysOf reg).filter (fun k => k != key) := by
  simp [keysOf, registerCancelable, map_fst_filter_ne]

/-- The registered key does not survive the filter that replacement performs. -/
lemma not_mem_filter_ne (key : String) (l : List String) :
    key ∉ l.filter (fun k => k != key) := by
  intro hmem
  have := (List.mem_filter.mp hmem).2
  simp at this

/-- C7: At most one live cancel handle per job key.  Registering preserves
distinctness of keys and leaves exactly one entry for the registered key;
after registering twice under the same key, a cancel invokes only the most
recently registered handle and reports success; cancelling a key with no
registered handle returns `false` with no handle invoked, not an error. -/
theorem cancellation_registry_props (key : String) (h1 h2 : CancelHandle) (reg : Registry)
    (hnd : (keysOf reg).Nodup) :
    (keysOf (registerCancelable key h2 reg)).Nodup ∧
    (keysOf (registerCancelable key h2 reg)).count key = 1 ∧
    cancel key (registerCancelable key h2 (registerCancelable key h1 reg)) = (true, [h2]) ∧
    cancel key ([] : Registry) = (false, []) := by
  refine ⟨?_, ?_, ?_, rfl⟩
  · rw [keysOf_registerCancelable]
    exact List.nodup_cons.mpr ⟨not_mem_filter_ne key _, hnd.filter _⟩
  · rw [keysOf_registerCancelable, List.count_cons_self,
      List.count_eq_zero.mpr (not_mem_filter_ne key _)]
  · simp [cancel, registerCancelable, List.find?_cons]

/-- Witness for C7 at a concrete key, two concrete handles and the empty
registry. -/
theorem cancellation_registry_props_witness :
    (keysOf (registerCancelable "github.com/a/b" 2 [])).Nodup ∧
    (keysOf (registerCancelable "github.com/a/b" 2 [])).count "github.com/a/b" = 1 ∧
    cancel "github.com/a/b"
      (registerCancelable "github.com/a/b" 2 (registerCancelable "github.com/a/b" 1 [])) =
        (true, [2]) ∧
    cancel "github.com/a/b" ([] : Registry) = (false, []) :=
  cancellation_registry_props "github.com/a/b" 1 2 [] (by decide)

/-- C1 (counterexample): the claim says no admission check occurs for a job
whose repository URL fails validation, but executing the job with the
invalid URL `file:///foo/bar.git` (the input of the
`Skip clone job for invalid git url` test) consults the watermark probe
exactly once. -/
theorem executeJob_admission_for_invalid_url_cex :
    isValidGitUrl "file:///foo/bar.git" = false ∧
    countEvt isProbe
      (executeJob (some false)
        { payload := { url := "file:///foo/bar.git" }, timestamp := 0 }).2 = 1 := by
  decide

/-- C1 (amended): on every execution attempt the disk-watermark admission
check is performed exactly once, as the very first collaborator call — before
URL validation (it occurs even for a job whose URL fails validation) and
before any I/O. -/
theorem executeJob_probe_once_first (probe : Option Bool) (job : Job) :
    countEvt isProbe (executeJob probe job).2 = 1 ∧
    (executeJob probe job).2.head? = some .probeConsulted := by
  rcases probe with _ | _ | _
  · simp [executeJob, countEvt, isProbe]
  · by_cases h : isValidGitUrl job.payload.url
    · simp [executeJob, h, countEvt, isProbe]
    · simp [executeJob, h, countEvt, isProbe]
  · simp [executeJob, countEvt, isProbe]

/-- C2: when the watermark probe reports low disk, `executeJob` fails with
`AdmissionRejected`, creates no repository-service instance, drives no clone,
and consults the probe exactly once. -/
theorem executeJob_low_watermark (job : Job) :
    (executeJob (some true) job).1 = .error .AdmissionRejected ∧
    countEvt isNewInstance (executeJob (some true) job).2 = 0 ∧
    countEvt isClone (executeJob (some true) job).2 = 0 ∧
    countEvt isProbe (executeJob (some true) job).2 = 1 := by
  refine ⟨rfl, ?_, ?_, ?_⟩ <;> simp [executeJob, countEvt, isNewInstance, isClone, isProbe]

/-- C5: for a syntactically invalid repository URL (and a healthy, non-low
watermark), `executeJob` returns normally with a `null` repository instead of
throwing, the watermark probe is still consulted exactly once, and no
repository-service instance is created. -/
theorem executeJob_invalid_url (job : Job)
    (hbad : isValidGitUrl job.payload.url = false) :
    (executeJob (some false) job).1 =
      .ok { uri := job.payload.url, repo := none, cancelled := false } ∧
    countEvt isProbe (executeJob (some false) job).2 = 1 ∧
    countEvt isNewInstance (executeJob (some false) job).2 = 0 := by
  refine ⟨?_, ?_, ?_⟩ <;>
    simp [executeJob, hbad, countEvt, isProbe, isNewInstance]

/-- Witness for C5 at the invalid URL `file:///foo/bar.git` from the
`Skip clone job for invalid git url` test. -/
theorem executeJob_invalid_url_witness :
    (executeJob (some false) { payload := { url := "file:///foo/bar.git" }, timestamp := 0 }).1 =
      .ok { uri := "file:///foo/bar.git", repo := none, cancelled := false } ∧
    countEvt isProbe
      (executeJob (some false) { payload := { url := "file:///foo/bar.git" }, timestamp := 0 }).2 = 1 ∧
    countEvt isNewInstance
      (executeJob (some false) { payload := { url := "file:///foo/bar.git" }, timestamp := 0 }).2 = 0 :=
  executeJob_invalid_url { payload := { url := "file:///foo/bar.git" }, timestamp := 0 } (by decide)

/-- C8: with a valid URL and a non-low watermark, exactly one
repository-service instance is obtained from the factory, its cancel handle
is registered once — under the job's key, the normalized repository URI —
and the clone is driven exactly once. -/
theorem executeJob_happy_path (job : Job)
    (hvalid : isValidGitUrl job.payload.url = true) :
    countEvt isNewInstance (executeJob (some false) job).2 = 1 ∧
    countEvt isRegister (executeJob (some false) job).2 = 1 ∧
    Event.registerCancelableEvt (repoUri job.payload.url) ∈ (executeJob (some false) job).2 ∧
    countEvt isClone (executeJob (some false) job).2 = 1 := by
  refine ⟨?_, ?_, ?_, ?_⟩ <;>
    simp [executeJob, hvalid, countEvt, isNewInstance, isRegister, isClone]

/-- Witness for C8 at the valid URL of the `Execute clone job` test. -/
theorem executeJob_happy_path_witness :
    countEvt isNewInstance
      (executeJob (some false)
        { payload := { url := "https://github.com/Microsoft/TypeScript-Node-Starter.git" },
          timestamp := 0 }).2 = 1 ∧
    countEvt isRegister
      (executeJob (some false)
        { payload := { url := "https://github.com/Microsoft/TypeScript-Node-Starter.git" },
          timestamp := 0 }).2 = 1 ∧
    Event.registerCancelableEvt
        (repoUri "https://github.com/Microsoft/TypeScript-Node-Starter.git") ∈
      (executeJob (some false)
        { payload := { url := "https://github.com/Microsoft/TypeScript-Node-Starter.git" },
          timestamp := 0 }).2 ∧
    countEvt isClone
      (executeJob (some false)
        { payload := { url := "https://github.com/Microsoft/TypeScript-Node-Starter.git" },
          timestamp := 0 }).2 = 1 :=
  executeJob_happy_path
    { payload := { url := "https://github.com/Microsoft/TypeScript-Node-Starter.git" },
      timestamp := 0 } (by decide)

/-- C10: a low-watermark rejection surfaces as a thrown `AdmissionRejected`
error, while the invalid-URL path returns a normal result carrying a `null`
repository — so callers can tell the two apart. -/
theorem executeJob_rejection_vs_noop (job jobBad : Job)
    (hbad : isValidGitUrl jobBad.payload.url = false) :
    (executeJob (some true) job).1 = .error .AdmissionRejected ∧
    (executeJob (some false) jobBad).1 =
      .ok { uri := jobBad.payload.url, repo := none, cancelled := false } := by
  exact ⟨rfl, by simp [executeJob, hbad]⟩

/-- Witness for C10 at the low-watermark test's valid URL and the bare
filesystem path `/foo/bar.git` from the invalid-URL test. -/
theorem executeJob_rejection_vs_noop_witness :
    (executeJob (some true)
      { payload := { url := "https://github.com/Microsoft/TypeScript-Node-Starter.git" },
        timestamp := 0 }).1 = .error .AdmissionRejected ∧
    (executeJob (some false) { payload := { url := "/foo/bar.git" }, timestamp := 0 }).1 =
      .ok { uri := "/foo/bar.git", repo := none, cancelled := false } :=
  executeJob_rejection_vs_noop
    { payload := { url := "https://github.com/Microsoft/TypeScript-Node-Starter.git" },
      timestamp := 0 }
    { payload := { url := "/foo/bar.git" }, timestamp := 0 } (by decide)

/-- C3: on a non-cancelled completion at time `t`, exactly three status-store
update calls happen (repository metadata, clone-status revision, clone
progress) and the index job is enqueued exactly once; every update lands
strictly before the debounce timer fires, and the enqueue happens exactly when
the fixed one-second debounce delay elapses — never before. -/
theorem onJobCompleted_non_cancelled (t : Nat) (res : CloneWorkerResult)
    (h : res.cancelled = false) :
    countEvt isUpdate ((onJobCompleted t res).map Prod.snd) = 3 ∧
    countEvt isEnqueueIndex ((onJobCompleted t res).map Prod.snd) = 1 ∧
    (∀ p ∈ onJobCompleted t res, isUpdate p.2 = true → p.1 < t + debounceMs) ∧
    (∀ p ∈ onJobCompleted t res, isEnqueueIndex p.2 = true → p.1 = t + debounceMs) := by
  refine ⟨?_, ?_, ?_, ?_⟩ <;>
    simp [onJobCompleted, h, countEvt, isUpdate, isEnqueueIndex, debounceMs]

/-- Witness for C3 at completion time 0 with a concrete non-cancelled
result. -/
theorem onJobCompleted_non_cancelled_witness :
    countEvt isUpdate
      ((onJobCompleted 0
        { uri := "github.com/Microsoft/TypeScript-Node-Starter",
          repo := some { uri := "github.com/Microsoft/TypeScript-Node-Starter" },
          cancelled := false }).map Prod.snd) = 3 ∧
    countEvt isEnqueueIndex
      ((onJobCompleted 0
        { uri := "github.com/Microsoft/TypeScript-Node-Starter",
          repo := some { uri := "github.com/Microsoft/TypeScript-Node-Starter" },
          cancelled := false }).map Prod.snd) = 1 ∧
    (∀ p ∈ onJobCompleted 0
        { uri := "github.com/Microsoft/TypeScript-Node-Starter",
          repo := some { uri := "github.com/Microsoft/TypeScript-Node-Starter" },
          cancelled := false }, isUpdate p.2 = true → p.1 < 0 + debounceMs) ∧
    (∀ p ∈ onJobCompleted 0
        { uri := "github.com/Microsoft/TypeScript-Node-Starter",
          repo := some { uri := "github.com/Microsoft/TypeScript-Node-Starter" },
          cancelled := false }, isEnqueueIndex p.2 = true → p.1 = 0 + debounceMs) :=
  onJobCompleted_non_cancelled 0
    { uri := "github.com/Microsoft/TypeScript-Node-Starter",
      repo := some { uri := "github.com/Microsoft/TypeScript-Node-Starter" },
      cancelled := false } rfl

/-- C4: on a completion marked cancelled, the hook makes no collaborator call
at all — in particular zero status-store updates and no index-job enqueue at
any time. -/
theorem onJobCompleted_cancelled (t : Nat) (res : CloneWorkerResult)
    (h : res.cancelled = true) :
    onJobCompleted t res = [] ∧
    countEvt isUpdate ((onJobCompleted t res).map Prod.snd) = 0 ∧
    countEvt isEnqueueIndex ((onJobCompleted t res).map Prod.snd) = 0 := by
  refine ⟨?_, ?_, ?_⟩ <;> simp [onJobCompleted, h, countEvt]

/-- Witness for C4 at completion time 0 with the cancelled result of the
cancellation test. -/
theorem onJobCompleted_cancelled_witness :
    onJobCompleted 0
      { uri := "github.com/Microsoft/TypeScript-Node-Starter",
        repo := some { uri := "github.com/Microsoft/TypeScript-Node-Starter" },
        cancelled := true } = [] ∧
    countEvt isUpdate
      ((onJobCompleted 0
        { uri := "github.com/Microsoft/TypeScript-Node-Starter",
          repo := some { uri := "github.com/Microsoft/TypeScript-Node-Starter" },
          cancelled := true }).map Prod.snd) = 0 ∧
    countEvt isEnqueueIndex
      ((onJobCompleted 0
        { uri := "github.com/Microsoft/TypeScript-Node-Starter",
          repo := some { uri := "github.com/Microsoft/TypeScript-Node-Starter" },
          cancelled := true }).map Prod.snd) = 0 :=
  onJobCompleted_cancelled 0
    { uri := "github.com/Microsoft/TypeScript-Node-Starter",
      repo := some { uri := "github.com/Microsoft/TypeScript-Node-Starter" },
      cancelled := true } rfl

/-- C6: for every job, the enqueue hook makes exactly one status-store create
call, writing the initial record for the job's repository with progress 0.
The hook is a function of the job alone, so the write is independent of the
job's later outcome. -/
theorem onJobEnqueued_single_create (job : Job) :
    onJobEnqueued job = [.statusCreate (repoUri job.payload.url) 0] ∧
    countEvt isCreate (onJobEnqueued job) = 1 := by
  exact ⟨rfl, rfl⟩

/-- C9: the completion hook never consults the disk-watermark probe, on the
cancelled path or the non-cancelled one. -/
theorem onJobCompleted_never_probes (t : Nat) (res : CloneWorkerResult) :
    countEvt isProbe ((onJobCompleted t res).map Prod.snd) = 0 := by
  by_cases h : res.cancelled <;> simp [onJobCompleted, h, countEvt, isProbe]

end CodePlugin
